import Mathlib

/-!
Verification of the FlockCtrl driver core (flockwave/server/ext/flockctrl/driver.py).

The development shallowly embeds the driver's data model and operations:
Python dicts become association lists (`alookup` / `aset`, where assignment
replaces the value of an existing key in place and otherwise appends),
exceptions become `Except`, the asynchronous command flow becomes explicit
state passing with an effect log of the packets handed to the transport, and
floating-point arithmetic on timestamps and count rates becomes exact
rational arithmetic. The concurrency primitives (FutureMap, FutureCancelled)
live in flockwave.server.concurrency, which is not part of this repository;
their definitions below are modelled from the spec and marked as such.
-/

namespace FlockCtrl

/-- Association-list model of a Python dict: lookup returns the value of the
first (and, by construction of `aset`, only) entry with the given key. -/
def alookup {K V : Type} [DecidableEq K] : List (K × V) → K → Option V
  | [], _ => none
  | (k, v) :: rest, key => if k = key then some v else alookup rest key

/-- Association-list model of Python dict assignment: replaces the value of
an existing key in place, otherwise appends the new binding at the end
(Python dicts preserve insertion order). -/
def aset {K V : Type} [DecidableEq K] : List (K × V) → K → V → List (K × V)
  | [], key, val => [(key, val)]
  | (k, v) :: rest, key, val =>
    if k = key then (k, val) :: rest else (k, v) :: aset rest key val

/-! ## Address registry (FlockCtrlUAV.check_or_record_address,
FlockCtrlDriver._check_or_record_uav_address) -/

abbrev Medium := String
abbrev Address := String
abbrev UavId := String

/-- Error raised when a UAV reports a second, different address on a medium
where one is already known (flockctrl.errors.AddressConflictError). -/
structure AddressConflictError where
  medium : Medium
  address : Address
deriving DecidableEq

/-- Embedding of FlockCtrlUAV.check_or_record_address: when the UAV has no
address for the medium, store the given one; when the stored address differs
from the given one, raise AddressConflictError; when they are equal, change
nothing. -/
def check_or_record_address (addresses : List (Medium × Address))
    (medium : Medium) (address : Address) :
    Except AddressConflictError (List (Medium × Address)) :=
  match alookup addresses medium with
  | none => .ok (aset addresses medium address)
  | some current_address =>
    if current_address = address then .ok addresses
    else .error ⟨medium, address⟩

/-- Repeated record attempts on one UAV: a conflict leaves the address map
unchanged (the exception is raised before any mutation) and processing
continues with the next attempt. -/
def record_attempts (addresses : List (Medium × Address)) :
    List (Medium × Address) → List (Medium × Address)
  | [] => addresses
  | (m, a) :: rest =>
    match check_or_record_address addresses m a with
    | .ok addresses' => record_attempts addresses' rest
    | .error _ => record_attempts addresses rest

/-- Driver-level address state: the forward per-UAV address maps and the
global reverse index (medium, address) → UAV maintained by
FlockCtrlDriver._uavs_by_source_address. -/
structure DriverAddrState where
  uavAddresses : List (UavId × List (Medium × Address))
  uavsBySourceAddress : List ((Medium × Address) × UavId)
deriving DecidableEq

/-- Embedding of FlockCtrlDriver._check_or_record_uav_address: delegates to
check_or_record_address on the UAV's own address map (an AddressConflictError
propagates before any further mutation) and then assigns the reverse-index
entry (medium, address) → uav. A UAV not yet seen has an empty address map
(FlockCtrlUAV.__init__). -/
def check_or_record_uav_address (st : DriverAddrState) (uav : UavId)
    (medium : Medium) (address : Address) :
    Except AddressConflictError DriverAddrState :=
  match check_or_record_address ((alookup st.uavAddresses uav).getD [])
      medium address with
  | .error e => .error e
  | .ok addresses' =>
    .ok ⟨aset st.uavAddresses uav addresses',
         aset st.uavsBySourceAddress (medium, address) uav⟩

/-- Run of check_or_record_uav_address as a state transformer: on a conflict
the exception propagates to the caller and the driver state is untouched.
The Boolean records whether a conflict was raised. -/
def record_uav_address_run (st : DriverAddrState) (uav : UavId)
    (medium : Medium) (address : Address) : DriverAddrState × Bool :=
  match check_or_record_uav_address st uav medium address with
  | .ok st' => (st', false)
  | .error _ => (st, true)

/-! ## Identifier resolution (FlockCtrlDriver._get_or_create_uav) -/

/-- Driver identifier state: the numeric-id → formatted-id cache
(_index_to_uav_id) and the formatted ids present in the external UAV
registry. -/
structure IdState where
  indexToUavId : List (Nat × String)
  registry : List String
deriving DecidableEq

/-- Embedding of FlockCtrlDriver._get_or_create_uav restricted to identifier
resolution: fmt is the composition of id_format.format and make_valid_uav_id
(both external and deterministic, kept abstract). Returns the formatted id
under which the UAV is (created if missing and) registered, plus the new
state. -/
def get_or_create_uav_id (fmt : Nat → String) (st : IdState) (id : Nat) :
    String × IdState :=
  let formatted_cache : String × List (Nat × String) :=
    match alookup st.indexToUavId id with
    | some formatted => (formatted, st.indexToUavId)
    | none => (fmt id, aset st.indexToUavId id (fmt id))
  let formatted := formatted_cache.1
  let registry' :=
    if formatted ∈ st.registry then st.registry else formatted :: st.registry
  (formatted, ⟨formatted_cache.2, registry'⟩)

/-- Session events: driver-side id resolutions interleaved with external
registry purges (removing a vehicle from the registry does not touch the
driver's _index_to_uav_id cache). -/
inductive IdEvent
  | getOrCreate (id : Nat)
  | purge (formattedId : String)
deriving DecidableEq

/-- Runs a session trace of identifier events. -/
def run_id_events (fmt : Nat → String) (st : IdState) :
    List IdEvent → IdState
  | [] => st
  | .getOrCreate id :: rest =>
      run_id_events fmt (get_or_create_uav_id fmt st id).2 rest
  | .purge fid :: rest =>
      run_id_events fmt ⟨st.indexToUavId, st.registry.erase fid⟩ rest

/-- Initial identifier state: FlockCtrlDriver.__init__ sets
_index_to_uav_id = {} and the registry starts empty. -/
def initialIdState : IdState := ⟨[], []⟩

/-! ## Packet dispatch (FlockCtrlDriver.handle_inbound_packet) -/

/-- FlockCtrl packet classes relevant to the dispatch table;
commandRequestPacket is an outbound-only class with no entry in the table. -/
inductive PacketClass
  | statusPacket
  | prearmStatusPacket
  | compressedCommandResponsePacket
  | commandResponsePacket
  | algorithmDataPacket
  | missionInfoPacket
  | commandRequestPacket
deriving DecidableEq

/-- Handler functions installed by _configure_packet_handlers. -/
inductive Handler
  | handleInboundStatusPacket
  | nopHandler
  | handleInboundCommandResponsePacket
  | handleInboundAlgorithmDataPacket
deriving DecidableEq

/-- Embedding of the dict built by FlockCtrlDriver._configure_packet_handlers;
classes without an entry map to none, mirroring dict.get. -/
def packet_handlers : PacketClass → Option Handler
  | .statusPacket => some .handleInboundStatusPacket
  | .prearmStatusPacket => some .nopHandler
  | .compressedCommandResponsePacket => some .handleInboundCommandResponsePacket
  | .commandResponsePacket => some .handleInboundCommandResponsePacket
  | .algorithmDataPacket => some .handleInboundAlgorithmDataPacket
  | .missionInfoPacket => some .nopHandler
  | .commandRequestPacket => none

/-- Outcome of dispatching one inbound packet. -/
inductive DispatchOutcome
  | warnedNoHandler
  | invoked (h : Handler)
deriving DecidableEq

/-- Embedding of FlockCtrlDriver.handle_inbound_packet: a miss in the table
logs a warning and drops the packet; a hit invokes exactly the mapped
handler. -/
def handle_inbound_packet (c : PacketClass) : DispatchOutcome :=
  match packet_handlers c with
  | none => .warnedNoHandler
  | some h => .invoked h

/-! ## Pending-command futures and response completion
(FlockCtrlDriver._on_chunked_packet_assembled,
FlockCtrlDriver._send_command_to_uav) -/

/-- State of a pending-command future. Modelled from the spec: FutureMap and
FutureCancelled come from flockwave.server.concurrency, which is not part of
this repository; §4.4 of the spec gives the beginCommand / fulfill / wait
semantics used here. -/
inductive FutureState
  | pendingCmd
  | fulfilledCmd (text : String)
  | cancelledCmd
deriving DecidableEq

/-- Modelled from the spec: FutureMap.new(id, strict) — absent id inserts a
fresh pending future; with a pending command present, strict mode fails with
CommandAlreadyInProgress leaving the map unchanged, lenient mode cancels the
predecessor and atomically replaces it with a fresh pending future. -/
def futureMapNew (pending : List (UavId × FutureState)) (id : UavId)
    (strict : Bool) : Except Unit (List (UavId × FutureState)) :=
  match alookup pending id with
  | none => .ok (aset pending id .pendingCmd)
  | some _ =>
    if strict then .error ()
    else .ok (aset pending id .pendingCmd)

/-- Modelled from the spec: indexing the FutureMap raises KeyError when no
pending command exists for the id; set_result fulfils the pending future. -/
def futureMapSetResult (pending : List (UavId × FutureState)) (id : UavId)
    (text : String) : Except Unit (List (UavId × FutureState)) :=
  match alookup pending id with
  | none => .error ()
  | some _ => .ok (aset pending id (.fulfilledCmd text))

/-- Driver state seen by the chunked-response completion handler. -/
structure AssemblyState where
  uavsBySourceAddress : List ((Medium × Address) × UavId)
  pendingCommandsByUav : List (UavId × FutureState)
deriving DecidableEq

/-- Observable outcome of the completion handler. -/
inductive AssembledOutcome
  | warnedUnknownSource
  | warnedStaleResponse (uav : UavId)
  | fulfilledPending (uav : UavId)
deriving DecidableEq

/-- Embedding of FlockCtrlDriver._on_chunked_packet_assembled; body stands
for the UTF-8 decode (invalid sequences replaced, hence total) of the
assembled bytes. -/
def on_chunked_packet_assembled (st : AssemblyState) (body : String)
    (source : Medium × Address) : AssemblyState × AssembledOutcome :=
  match alookup st.uavsBySourceAddress source with
  | none => (st, .warnedUnknownSource)
  | some uav =>
    match futureMapSetResult st.pendingCommandsByUav uav body with
    | .error _ => (st, .warnedStaleResponse uav)
    | .ok pending' => (⟨st.uavsBySourceAddress, pending'⟩, .fulfilledPending uav)

/-- Media tried by FlockCtrlUAV.preferred_address, in priority order: the
source iterates over the one-element tuple ("wireless",). -/
def supported_media : List Medium := ["wireless"]

/-- Helper for preferred_address: first medium in the priority list for
which an address is recorded. -/
def preferred_address_in (addresses : List (Medium × Address)) :
    List Medium → Option (Medium × Address)
  | [] => none
  | m :: rest =>
    match alookup addresses m with
    | some a => some (m, a)
    | none => preferred_address_in addresses rest

/-- Embedding of FlockCtrlUAV.preferred_address; none models the ValueError
raised when the UAV has no address in any supported medium. -/
def preferred_address (addresses : List (Medium × Address)) :
    Option (Medium × Address) :=
  preferred_address_in addresses supported_media

/-- Eventual resolution of a pending-command future, supplied externally by
the response pipeline or a canceller. -/
inductive FutureOutcome
  | fulfilled (text : String)
  | cancelled
deriving DecidableEq

/-- Modelled from the spec: waiting on a future returns the fulfilment text,
or raises FutureCancelled when the future was cancelled. -/
def futureWait : FutureOutcome → Except Unit String
  | .fulfilled text => .ok text
  | .cancelled => .error ()

/-- State consulted by _send_command_to_uav: the target UAV's address map,
the driver's pending-command map, and the preemption-policy flag. -/
structure SendState where
  addresses : List (Medium × Address)
  pendingCommandsByUav : List (UavId × FutureState)
  allowMultipleCommandsPerUav : Bool
deriving DecidableEq

/-- Result of a command-send attempt: errorAddressUnknown models the
ValueError raised when no address is known, errorCommandAlreadyInProgress
the strict-mode rejection, and result the text returned to the sender. -/
inductive SendOutcome
  | errorAddressUnknown
  | errorCommandAlreadyInProgress
  | result (text : String)
deriving DecidableEq

/-- Effects of one command-send attempt: its outcome, the command packets
handed to send_packet (command string plus destination; UTF-8 encoding is
abstracted away), and the pending map right after slot acquisition. -/
structure SendEffect where
  outcome : SendOutcome
  packetsSent : List (String × (Medium × Address))
  pendingAfter : List (UavId × FutureState)
deriving DecidableEq

/-- Embedding of FlockCtrlDriver._send_command_to_uav as a sequential model
of the coroutine: resolve the preferred address (ValueError when none),
transmit the command packet, then acquire the pending-command slot (strict
iff allow_multiple_commands_per_uav is false) and wait on the future, whose
eventual resolution is passed in as eventualOutcome; FutureCancelled is
caught and turned into the sentinel result. pendingAfter reflects the map
right after slot acquisition, before scope exit removes the slot. -/
def send_command_to_uav (st : SendState) (command : String) (uav : UavId)
    (eventualOutcome : FutureOutcome) : SendEffect :=
  match preferred_address st.addresses with
  | none => ⟨.errorAddressUnknown, [], st.pendingCommandsByUav⟩
  | some address =>
    let sent := [(command, address)]
    match futureMapNew st.pendingCommandsByUav uav
        (!st.allowMultipleCommandsPerUav) with
    | .error _ =>
      ⟨.errorCommandAlreadyInProgress, sent, st.pendingCommandsByUav⟩
    | .ok pending' =>
      match futureWait eventualOutcome with
      | .ok text => ⟨.result text, sent, pending'⟩
      | .error _ => ⟨.result "Execution cancelled", sent, pending'⟩

/-! ## Sensor mutation pipeline (FlockCtrlUAV.update_geiger_counter,
FlockCtrlUAV.update_detected_features) -/

/-- GPS coordinate with optional altitude above mean sea level and above
ground level. -/
structure GPSCoordinate where
  lat : ℚ
  lon : ℚ
  amsl : Option ℚ
  agl : Option ℚ
deriving DecidableEq

/-- The pos_data dict built by the update methods: lat and lon always
present, amsl and agl only when the tagging position carries them. -/
structure PosData where
  lat : ℚ
  lon : ℚ
  amsl : Option ℚ
  agl : Option ℚ
deriving DecidableEq

/-- pos_data built from a position. -/
def posDataOf (p : GPSCoordinate) : PosData := ⟨p.lat, p.lon, p.amsl, p.agl⟩

/-- Value written to a device-tree channel. -/
inductive MutValue
  | noneVal
  | intVal (n : ℤ)
  | ratVal (q : ℚ)
deriving DecidableEq

/-- Device-tree channels declared by
FlockCtrlUAV._initialize_device_tree_node. -/
inductive Channel
  | doseRate
  | rawCount (i : Nat)
  | rate (i : Nat)
  | cameraFeature (i : Nat)
deriving DecidableEq

def MAX_GEIGER_TUBE_COUNT : Nat := 2

def MAX_CAMERA_FEATURE_COUNT : Nat := 32

/-- The geiger_counter_raw_counts channel list. -/
def geiger_counter_raw_counts : List Channel :=
  (List.range MAX_GEIGER_TUBE_COUNT).map .rawCount

/-- The geiger_counter_rates channel list. -/
def geiger_counter_rates : List Channel :=
  (List.range MAX_GEIGER_TUBE_COUNT).map .rate

/-- One mutator.update call: target channel, position tag and value. -/
structure Write where
  channel : Channel
  pos : PosData
  value : MutValue
deriving DecidableEq

/-- Per-UAV sensor state read and written by the update methods: the last
known status position and the retained previous Geiger sample
(_last_geiger_counter_packet). -/
structure SensorState where
  statusPosition : Option GPSCoordinate
  lastGeigerCounterPacket : Option (ℤ × List ℤ)
deriving DecidableEq

/-- Value slot for the dose-rate channel (None when the counter is off). -/
def optRatVal : Option ℚ → MutValue
  | none => .noneVal
  | some q => .ratVal q

/-- Embedding of FlockCtrlUAV.update_geiger_counter. The position argument is
shadowed by the UAV's stored status position in the source before any use;
writes are listed in the order the mutator receives them (dose rate, raw
counts, then rates), and the retained last packet is replaced at the end. -/
def update_geiger_counter (s : SensorState) (position : GPSCoordinate)
    (itow : ℤ) (dose_rate : Option ℚ) (raw_counts : List ℤ) :
    List Write × SensorState :=
  match s.statusPosition with
  | none => ([], s)
  | some statusPos =>
    let pos_data := posDataOf statusPos
    let doseWrite : Write := ⟨.doseRate, pos_data, optRatVal dose_rate⟩
    let rawWrites : List Write :=
      (geiger_counter_raw_counts.zip raw_counts).map
        (fun dv => ⟨dv.1, pos_data, .intVal dv.2⟩)
    let rateWrites : List Write :=
      match s.lastGeigerCounterPacket with
      | none => []
      | some (last_itow, last_raw_counts) =>
        let dt : ℚ := ((itow - last_itow : ℤ) : ℚ) / 1000
        if 0 < dt then
          let values : List (Option ℚ) :=
            (raw_counts.zip last_raw_counts).map
              (fun vl =>
                if vl.2 < vl.1 then some (((vl.1 - vl.2 : ℤ) : ℚ) / dt)
                else none)
          (geiger_counter_rates.zip values).filterMap
            (fun dv => dv.2.map (fun q => Write.mk dv.1 pos_data (.ratVal q)))
        else []
    (doseWrite :: (rawWrites ++ rateWrites),
     ⟨s.statusPosition, some (itow, raw_counts)⟩)

/-- Embedding of FlockCtrlUAV.update_detected_features: bails out when the
UAV's status position is unknown; otherwise writes each detected feature's
own coordinates, with the timestamp as value, to camera feature channel i.
(The source indexes the 32-element camera_features list, so behaviour is
defined for at most MAX_CAMERA_FEATURE_COUNT features.) -/
def update_detected_features (s : SensorState) (itow : ℤ)
    (features : List GPSCoordinate) : List Write :=
  match s.statusPosition with
  | none => []
  | some _ =>
    features.enum.map
      (fun ifeat => ⟨.cameraFeature ifeat.1, posDataOf ifeat.2, .intVal itow⟩)

/-- Writes in a mutator log addressed to the given channel. -/
def writesTo (ws : List Write) (c : Channel) : List Write :=
  ws.filter (fun w => w.channel == c)

/-! ## Helper lemmas -/

theorem alookup_aset_self {K V : Type} [DecidableEq K]
    (l : List (K × V)) (k : K) (v : V) : alookup (aset l k v) k = some v := by
  induction l with
  | nil => simp [aset, alookup]
  | cons hd tl ih =>
    obtain ⟨k', v'⟩ := hd
    by_cases h : k' = k
    · subst h; simp [aset, alookup]
    · simp [aset, alookup, h, ih]

theorem alookup_aset_ne {K V : Type} [DecidableEq K]
    (l : List (K × V)) (k k' : K) (v : V) (h : k ≠ k') :
    alookup (aset l k v) k' = alookup l k' := by
  induction l with
  | nil => simp [aset, alookup, h]
  | cons hd tl ih =>
    obtain ⟨k₀, v₀⟩ := hd
    by_cases h₀ : k₀ = k
    · subst h₀; simp [aset, alookup, h]
    · simp [aset, alookup, h₀, ih]

theorem aset_self_of_alookup {K V : Type} [DecidableEq K]
    (l : List (K × V)) (k : K) (v : V) (h : alookup l k = some v) :
    aset l k v = l := by
  induction l with
  | nil => simp [alookup] at h
  | cons hd tl ih =>
    obtain ⟨k₀, v₀⟩ := hd
    by_cases h₀ : k₀ = k
    · subst h₀
      simp [alookup] at h
      simp [aset, h]
    · simp [alookup, h₀] at h
      simp [aset, h₀, ih h]

theorem record_attempts_lookup (attempts : List (Medium × Address)) :
    ∀ (addresses : List (Medium × Address)) (m : Medium),
      alookup (record_attempts addresses attempts) m =
        (alookup addresses m).orElse (fun _ => alookup attempts m) := by
  induction attempts with
  | nil =>
    intro addresses m
    cases h : alookup addresses m <;> simp [record_attempts, h, alookup]
  | cons hd tl ih =>
    intro addresses m
    obtain ⟨m₀, a₀⟩ := hd
    by_cases hm : m₀ = m
    · subst hm
      cases hcur : alookup addresses m₀ with
      | none =>
        simp [record_attempts, check_or_record_address, hcur, ih,
          alookup_aset_self, alookup]
      | some c =>
        by_cases hc : c = a₀ <;>
          simp [record_attempts, check_or_record_address, hcur, hc, ih, alookup,
            hcur]
    · cases hcur : alookup addresses m₀ with
      | none =>
        simp [record_attempts, check_or_record_address, hcur, ih, alookup, hm,
          alookup_aset_ne _ _ _ _ hm]
      | some c =>
        by_cases hc : c = a₀ <;>
          simp [record_attempts, check_or_record_address, hcur, hc, ih, alookup, hm]

theorem get_or_create_uav_id_spec (fmt : Nat → String) (st : IdState) (id : Nat)
    (h : ∀ k v, alookup st.indexToUavId k = some v → v = fmt k) :
    (get_or_create_uav_id fmt st id).1 = fmt id ∧
    (∀ k v, alookup (get_or_create_uav_id fmt st id).2.indexToUavId k = some v →
      v = fmt k) := by
  unfold get_or_create_uav_id
  cases hcur : alookup st.indexToUavId id with
  | some formatted =>
    exact ⟨h id formatted hcur, by simpa [hcur] using h⟩
  | none =>
    refine ⟨by simp [hcur], ?_⟩
    intro k v hv
    by_cases hk : k = id
    · subst hk
      simp [hcur, alookup_aset_self] at hv
      simp [hv]
    · have hne : id ≠ k := fun hne => hk hne.symm
      simp [hcur, alookup_aset_ne _ _ _ _ hne] at hv
      exact h k v hv

theorem run_id_events_cache (fmt : Nat → String) (events : List IdEvent) :
    ∀ st : IdState,
      (∀ k v, alookup st.indexToUavId k = some v → v = fmt k) →
      ∀ k v, alookup (run_id_events fmt st events).indexToUavId k = some v →
        v = fmt k := by
  induction events with
  | nil => intro st h; exact h
  | cons ev rest ih =>
    intro st h
    cases ev with
    | getOrCreate id =>
      exact ih _ (get_or_create_uav_id_spec fmt st id h).2
    | purge fid => exact ih ⟨st.indexToUavId, st.registry.erase fid⟩ h

/-- C3: recording an address when none is stored for the medium stores it;
recording the same address again succeeds and changes nothing; recording a
different address raises AddressConflictError and the map is untouched; and
after any sequence of record attempts starting from an empty map the address
held for a medium is the first address ever recorded for it. -/
theorem c3_address_record_first_wins
    (addresses : List (Medium × Address)) (medium : Medium) (address : Address) :
    (alookup addresses medium = none →
      check_or_record_address addresses medium address =
        .ok (aset addresses medium address)) ∧
    (alookup addresses medium = some address →
      check_or_record_address addresses medium address = .ok addresses) ∧
    (∀ current, alookup addresses medium = some current → current ≠ address →
      check_or_record_address addresses medium address =
        .error ⟨medium, address⟩) ∧
    (∀ attempts m, alookup (record_attempts [] attempts) m = alookup attempts m) := by
  refine ⟨?_, ?_, ?_, ?_⟩
  · intro h; simp [check_or_record_address, h]
  · intro h; simp [check_or_record_address, h]
  · intro current hcur hne; simp [check_or_record_address, hcur, hne]
  · intro attempts m
    simpa [alookup] using record_attempts_lookup attempts [] m

/-- C3 witness: a conflicting second address is rejected, and after the
attempt sequence addrA, addrB, addrA on one medium the stored address is
addrA, the first one recorded. -/
theorem c3_witness :
    check_or_record_address [("wireless", "addrA")] "wireless" "addrB" =
      .error ⟨"wireless", "addrB"⟩ ∧
    alookup (record_attempts []
        [("wireless", "addrA"), ("wireless", "addrB"), ("wireless", "addrA")])
      "wireless" = some "addrA" :=
  ⟨(c3_address_record_first_wins [("wireless", "addrA")] "wireless" "addrB").2.2.1
      "addrA" (by decide) (by decide),
   ((c3_address_record_first_wins [] "wireless" "addrA").2.2.2
       [("wireless", "addrA"), ("wireless", "addrB"), ("wireless", "addrA")]
       "wireless").trans (by decide)⟩

/-- C4 counterexample: starting from an empty driver state, vehicle A records
(w, x), then vehicle B records the same (w, x), then A repeats its record.
The third operation succeeds, no forward address map accepts a new address
(the forward component is unchanged), yet the reverse index changes from
(w, x) → B back to (w, x) → A — refuting the claim that the reverse index is
updated exactly when the forward map accepts a new address. -/
theorem c4_counterexample :
    (record_uav_address_run
        (record_uav_address_run
          (record_uav_address_run ⟨[], []⟩ "A" "w" "x").1 "B" "w" "x").1
        "A" "w" "x").2 = false ∧
    (record_uav_address_run
        (record_uav_address_run
          (record_uav_address_run ⟨[], []⟩ "A" "w" "x").1 "B" "w" "x").1
        "A" "w" "x").1.uavAddresses =
      (record_uav_address_run
        (record_uav_address_run ⟨[], []⟩ "A" "w" "x").1 "B" "w" "x").1.uavAddresses ∧
    (record_uav_address_run
        (record_uav_address_run
          (record_uav_address_run ⟨[], []⟩ "A" "w" "x").1 "B" "w" "x").1
        "A" "w" "x").1.uavsBySourceAddress ≠
      (record_uav_address_run
        (record_uav_address_run ⟨[], []⟩ "A" "w" "x").1 "B" "w" "x").1.uavsBySourceAddress := by
  decide

/-- C4 (amended): a recording attempt that raises AddressConflictError leaves
the whole driver state, in particular the reverse index, unchanged; a
successful recording sets the reverse-index entry for the recorded
(medium, address) to the recording vehicle and changes no other entry; and an
idempotent re-recording by the vehicle the reverse index already names
changes nothing at all — so the reverse index changes exactly when a forward
map accepts a new address provided each (medium, address) pair is only ever
reported by a single vehicle. -/
theorem c4_reverse_index_consistency (st : DriverAddrState) (uav : UavId)
    (medium : Medium) (address : Address) :
    (∀ e, check_or_record_uav_address st uav medium address = .error e →
      record_uav_address_run st uav medium address = (st, true)) ∧
    (∀ st', check_or_record_uav_address st uav medium address = .ok st' →
      alookup st'.uavsBySourceAddress (medium, address) = some uav ∧
      ∀ k, k ≠ (medium, address) →
        alookup st'.uavsBySourceAddress k = alookup st.uavsBySourceAddress k) ∧
    (∀ addrs, alookup st.uavAddresses uav = some addrs →
      alookup addrs medium = some address →
      alookup st.uavsBySourceAddress (medium, address) = some uav →
      record_uav_address_run st uav medium address = (st, false)) := by
  obtain ⟨fwd, rev⟩ := st
  refine ⟨?_, ?_, ?_⟩
  · intro e he
    simp [record_uav_address_run, he]
  · intro st' hok
    unfold check_or_record_uav_address at hok
    cases hrec : check_or_record_address ((alookup fwd uav).getD []) medium address with
    | error e => simp [hrec] at hok
    | ok addresses' =>
      simp [hrec] at hok
      subst hok
      exact ⟨alookup_aset_self _ _ _,
        fun k hk => alookup_aset_ne _ _ _ _ (Ne.symm hk)⟩
  · intro addrs haddrs hmed hrev
    have hrec : check_or_record_address ((alookup fwd uav).getD []) medium address =
        .ok addrs := by
      simp [haddrs, check_or_record_address, hmed]
    simp [record_uav_address_run, check_or_record_uav_address, hrec,
      aset_self_of_alookup _ _ _ haddrs, aset_self_of_alookup _ _ _ hrev]

/-- C4 witness: a conflicting record leaves the state unchanged, and a fresh
record indexes the reverse entry. -/
theorem c4_witness :
    record_uav_address_run ⟨[("A", [("w", "x")])], [(("w", "x"), "A")]⟩
        "A" "w" "y" = (⟨[("A", [("w", "x")])], [(("w", "x"), "A")]⟩, true) ∧
    record_uav_address_run ⟨[("A", [("w", "x")])], [(("w", "x"), "A")]⟩
        "A" "w" "x" = (⟨[("A", [("w", "x")])], [(("w", "x"), "A")]⟩, false) :=
  ⟨(c4_reverse_index_consistency ⟨[("A", [("w", "x")])], [(("w", "x"), "A")]⟩
      "A" "w" "y").1 ⟨"w", "y"⟩ (by rfl),
   (c4_reverse_index_consistency ⟨[("A", [("w", "x")])], [(("w", "x"), "A")]⟩
      "A" "w" "x").2.2 [("w", "x")] (by decide) (by decide) (by decide)⟩

/-- C5: over any session trace of identifier resolutions and registry purges
starting from the initial driver state, resolving a numeric id always
returns the same formatted id fmt n — the mapping is computed once, cached
in _index_to_uav_id for the driver's lifetime, and reused even if the
vehicle registry no longer contains the vehicle. -/
theorem c5_formatted_id_deterministic (fmt : Nat → String)
    (events : List IdEvent) (n : Nat) :
    (get_or_create_uav_id fmt (run_id_events fmt initialIdState events) n).1 =
      fmt n := by
  have hinit : ∀ k v, alookup initialIdState.indexToUavId k = some v → v = fmt k := by
    intro k v hv
    simp [initialIdState, alookup] at hv
  exact (get_or_create_uav_id_spec fmt _ n
    (run_id_events_cache fmt events initialIdState hinit)).1

/-- C6: a packet class with no entry in the dispatch table is dropped with a
warning and no handler is invoked; a packet class with an entry invokes
exactly the mapped handler. -/
theorem c6_dispatch_table_total (c : PacketClass) :
    (packet_handlers c = none →
      handle_inbound_packet c = .warnedNoHandler ∧
      ∀ h, handle_inbound_packet c ≠ .invoked h) ∧
    (∀ h, packet_handlers c = some h → handle_inbound_packet c = .invoked h) := by
  cases c <;> simp [packet_handlers, handle_inbound_packet]

/-- C6 witness: the outbound-only command request class has no entry and is
dropped with a warning; a status packet invokes the status handler. -/
theorem c6_witness :
    handle_inbound_packet .commandRequestPacket = .warnedNoHandler ∧
    handle_inbound_packet .statusPacket = .invoked .handleInboundStatusPacket :=
  ⟨((c6_dispatch_table_total .commandRequestPacket).1 rfl).1,
   (c6_dispatch_table_total .statusPacket).2 _ rfl⟩

/-- C7: a reassembled response whose source maps to no known vehicle, or
whose resolved vehicle has no pending command, makes the completion handler
log a warning and return with the driver state untouched — in particular no
pending command of any vehicle is fulfilled, cancelled or removed. -/
theorem c7_unmatched_response_dropped (st : AssemblyState) (body : String)
    (source : Medium × Address)
    (h : alookup st.uavsBySourceAddress source = none ∨
      ∃ uav, alookup st.uavsBySourceAddress source = some uav ∧
        alookup st.pendingCommandsByUav uav = none) :
    (on_chunked_packet_assembled st body source).1 = st ∧
    ((on_chunked_packet_assembled st body source).2 = .warnedUnknownSource ∨
      ∃ uav, (on_chunked_packet_assembled st body source).2 =
        .warnedStaleResponse uav) := by
  rcases h with h | ⟨uav, hsrc, hpend⟩
  · simp [on_chunked_packet_assembled, h]
  · simp [on_chunked_packet_assembled, hsrc, futureMapSetResult, hpend]

/-- C7 witness: a response from the address of vehicle 01, which has no
pending command, is dropped while vehicle 02's pending command survives. -/
theorem c7_witness :
    (on_chunked_packet_assembled
        ⟨[(("wireless", "a"), "01")], [("02", .pendingCmd)]⟩ "resp"
        ("wireless", "a")).1 =
      ⟨[(("wireless", "a"), "01")], [("02", .pendingCmd)]⟩ :=
  (c7_unmatched_response_dropped
    ⟨[(("wireless", "a"), "01")], [("02", .pendingCmd)]⟩ "resp" ("wireless", "a")
    (Or.inr ⟨"01", by decide, by decide⟩)).1

/-- C8: a vehicle with no recorded address on any supported medium makes the
command send fail synchronously with the ValueError modelling NoKnownAddress,
before any packet is transmitted and before any pending-command slot is
created: the transport log is empty and the pending map is untouched. -/
theorem c8_no_address_fails_before_send (st : SendState) (command : String)
    (uav : UavId) (outcome : FutureOutcome)
    (h : alookup st.addresses "wireless" = none) :
    send_command_to_uav st command uav outcome =
      ⟨.errorAddressUnknown, [], st.pendingCommandsByUav⟩ := by
  simp [send_command_to_uav, preferred_address, preferred_address_in,
    supported_media, h]

/-- C8 witness: an address on an unsupported medium only does not help; the
send fails with no packet transmitted and the pending map untouched. -/
theorem c8_witness :
    send_command_to_uav ⟨[("xbee", "a")], [("01", .pendingCmd)], true⟩ "land"
        "02" (.fulfilled "ok") =
      ⟨.errorAddressUnknown, [], [("01", .pendingCmd)]⟩ :=
  c8_no_address_fails_before_send ⟨[("xbee", "a")], [("01", .pendingCmd)], true⟩
    "land" "02" (.fulfilled "ok") (by decide)

/-- C9: whenever the send proceeds to waiting (an address resolved and the
slot was acquired) and the acquired future is cancelled, the command sender
receives the sentinel string rather than a propagating FutureCancelled. -/
theorem c9_cancellation_sentinel (st : SendState) (command : String)
    (uav : UavId) (addr : Medium × Address)
    (pending' : List (UavId × FutureState))
    (haddr : preferred_address st.addresses = some addr)
    (hnew : futureMapNew st.pendingCommandsByUav uav
      (!st.allowMultipleCommandsPerUav) = .ok pending') :
    send_command_to_uav st command uav .cancelled =
      ⟨.result "Execution cancelled", [(command, addr)], pending'⟩ := by
  simp [send_command_to_uav, haddr, hnew, futureWait]

/-- C9 witness: a concrete cancelled command resolves to the sentinel. -/
theorem c9_witness :
    send_command_to_uav ⟨[("wireless", "addrA")], [], false⟩ "land" "01"
        .cancelled =
      ⟨.result "Execution cancelled", [("land", ("wireless", "addrA"))],
        [("01", .pendingCmd)]⟩ :=
  c9_cancellation_sentinel ⟨[("wireless", "addrA")], [], false⟩ "land" "01"
    ("wireless", "addrA") [("01", .pendingCmd)] (by rfl) (by rfl)

/-- C1: evaluation at the failing input. In strict mode with a command
already pending for vehicle 01, a second command request fails with the
CommandAlreadyInProgress rejection and the first command remains pending and
is still fulfillable by its response afterwards — but the command packet for
the new command has already been handed to the transport (packetsSent is the
one-element list), because _send_command_to_uav transmits before acquiring
the pending-command slot. -/
theorem c1_strict_failure_still_transmits :
    send_command_to_uav ⟨[("wireless", "addrA")], [("01", .pendingCmd)], false⟩
        "land" "01" (.fulfilled "ok") =
      ⟨.errorCommandAlreadyInProgress, [("land", ("wireless", "addrA"))],
        [("01", .pendingCmd)]⟩ ∧
    on_chunked_packet_assembled
        ⟨[(("wireless", "addrA"), "01")], [("01", .pendingCmd)]⟩ "first result"
        ("wireless", "addrA") =
      (⟨[(("wireless", "addrA"), "01")], [("01", .fulfilledCmd "first result")]⟩,
        .fulfilledPending "01") := by
  decide

/-- C2 (amended): with a known status position and a retained previous
sample, the rate channel for each tube is written iff the elapsed time
dt = (itow - last_itow) / 1000 is positive and the new raw count is strictly
greater than the previous one, and the written value is
(new - previous) / dt. -/
theorem c2_rate_written_iff (p posArg : GPSCoordinate) (itow last_itow : ℤ)
    (dose_rate : Option ℚ) (a b c d : ℤ) :
    writesTo (update_geiger_counter ⟨some p, some (last_itow, [c, d])⟩ posArg
        itow dose_rate [a, b]).1 (.rate 0) =
      (if 0 < ((itow - last_itow : ℤ) : ℚ) / 1000 ∧ c < a then
        [⟨.rate 0, posDataOf p, .ratVal (((a - c : ℤ) : ℚ) /
          (((itow - last_itow : ℤ) : ℚ) / 1000))⟩]
      else []) ∧
    writesTo (update_geiger_counter ⟨some p, some (last_itow, [c, d])⟩ posArg
        itow dose_rate [a, b]).1 (.rate 1) =
      (if 0 < ((itow - last_itow : ℤ) : ℚ) / 1000 ∧ d < b then
        [⟨.rate 1, posDataOf p, .ratVal (((b - d : ℤ) : ℚ) /
          (((itow - last_itow : ℤ) : ℚ) / 1000))⟩]
      else []) := by
  by_cases hca : c < a <;> by_cases hdb : d < b <;>
    constructor <;>
      (simp [update_geiger_counter, writesTo, geiger_counter_rates,
        geiger_counter_raw_counts, MAX_GEIGER_TUBE_COUNT, List.range_succ,
        List.filter_cons, List.filterMap_cons, hca, hdb] <;>
       try split <;> simp)

/-- C2 counterexample: previous raw count 100 at time 1000 and new raw count
100 at time 2000 give positive elapsed time and a new count that is not less
than the previous one, yet the rate channel for tube 0 is left unwritten —
refuting the claimed iff with its "not less than" bound. -/
theorem c2_counterexample :
    (0 : ℚ) < ((2000 - 1000 : ℤ) : ℚ) / 1000 ∧ (100 : ℤ) ≤ 100 ∧
    writesTo (update_geiger_counter
        ⟨some ⟨1, 2, none, none⟩, some (1000, [100, 0])⟩ ⟨9, 9, none, none⟩
        2000 (some 3) [100, 0]).1 (.rate 0) = [] := by
  refine ⟨by norm_num, le_refl _, ?_⟩
  norm_num [update_geiger_counter, writesTo, geiger_counter_rates,
    geiger_counter_raw_counts, MAX_GEIGER_TUBE_COUNT, posDataOf, optRatVal,
    List.range_succ, List.filter_cons, List.filterMap_cons, Option.map]
  decide

/-- C2 witness: the spec scenario — previous raw count 100 at time 1000, new
raw count 150 at time 2000, dt = 1 — writes 50 to the rate channel of
tube 0. -/
theorem c2_witness :
    writesTo (update_geiger_counter
        ⟨some ⟨1, 2, none, none⟩, some (1000, [100, 0])⟩ ⟨9, 9, none, none⟩
        2000 (some 3) [150, 0]).1 (.rate 0) =
      [⟨.rate 0, ⟨1, 2, none, none⟩, .ratVal 50⟩] := by
  have h := (c2_rate_written_iff ⟨1, 2, none, none⟩ ⟨9, 9, none, none⟩ 2000 1000
    (some 3) 150 0 100 0).1
  rw [if_pos (by norm_num)] at h
  rw [h]
  norm_num [posDataOf]

/-- C10: with no known status position neither sensor update writes any
channel and the retained Geiger sample is left unchanged; with a known
status position update_geiger_counter produces the same result whatever its
position argument and tags every write with the stored status position. -/
theorem c10_status_position_gating (s : SensorState)
    (posArg posArg' : GPSCoordinate) (itow : ℤ) (dose_rate : Option ℚ)
    (raw_counts : List ℤ) (features : List GPSCoordinate) :
    (s.statusPosition = none →
      update_geiger_counter s posArg itow dose_rate raw_counts = ([], s) ∧
      update_detected_features s itow features = []) ∧
    update_geiger_counter s posArg itow dose_rate raw_counts =
      update_geiger_counter s posArg' itow dose_rate raw_counts ∧
    (∀ p, s.statusPosition = some p →
      ∀ w ∈ (update_geiger_counter s posArg itow dose_rate raw_counts).1,
        w.pos = posDataOf p) := by
  refine ⟨?_, rfl, ?_⟩
  · intro h
    simp [update_geiger_counter, update_detected_features, h]
  · intro p hp w hw
    cases hl : s.lastGeigerCounterPacket with
    | none =>
      simp [update_geiger_counter, hp, hl] at hw
      rcases hw with rfl | ⟨ch, n, hmem, rfl⟩ <;> rfl
    | some last =>
      obtain ⟨last_itow, last_raw_counts⟩ := last
      simp [update_geiger_counter, hp, hl] at hw
      rcases hw with rfl | ⟨ch, n, hmem, rfl⟩ |
        ⟨hcond, ch, ob, hmem, q, hq, rfl⟩ <;> rfl

/-- C10 witness: with no status position a Geiger update writes nothing and
keeps the retained sample, and a feature update writes nothing. -/
theorem c10_witness :
    update_geiger_counter ⟨none, some (1000, [5, 5])⟩ ⟨1, 1, none, none⟩ 2000
        (some 1) [7, 7] = ([], ⟨none, some (1000, [5, 5])⟩) ∧
    update_detected_features ⟨none, some (1000, [5, 5])⟩ 2000
      [⟨3, 4, none, none⟩] = [] :=
  (c10_status_position_gating ⟨none, some (1000, [5, 5])⟩ ⟨1, 1, none, none⟩
    ⟨1, 1, none, none⟩ 2000 (some 1) [7, 7] [⟨3, 4, none, none⟩]).1 rfl

end FlockCtrl
